import Mathlib

/-!
Verification of the ABDM gateway / hospital services.

This file gives a shallow embedding of the relevant parts of the
repository:

* `app/services/data_service.py` (gateway): data-transfer lifecycle
  (`request_health_info`, `receive_health_data_from_hip`,
  `send_health_info`, `notify_data_flow`, plus the internal helpers
  `_ensure_patient` and `_ensure_consent_approved`);
* `app/services/consent_service.py` (gateway): `notify_consent`;
* `app/api/routes/patient.py` (hospital): `register_patient` and
  `find_patient_by_mobile`;
* the payload codec, modelled from the spec since
  `app/utils/encryption.py` is not part of the provided sources.

Database tables are embedded as Lean lists of structures; SQLAlchemy
`select ... scalar_one_or_none() / scalar()` becomes `List.find?`, and an
ORM row mutation followed by `commit()` becomes an update of the first
matching row (`updateFirst`).  Timestamps (`datetime.utcnow()`) are
modelled by an explicit `now : Nat` parameter counted in seconds;
`timedelta(hours=24)` is `24 * 3600`.  Fresh UUIDs are explicit `fresh*`
parameters.  The outbound webhook performed by
`task_processor.send_hip_data_request` (the task processor is outside the
provided sources) is modelled by its boolean outcome `webhook_sent`
together with an explicit event trace recording that the call was
attempted.
-/

namespace ABDM

/-! ### Payload codec (modelled from the spec)

Modelled from the spec: `app/utils/encryption.py` is not included in the
sources; §3 and §4.5 of the spec describe the codec as
`encrypt(bundle) -> blob`, `decrypt(blob) -> bundle` over structured
health-data bundles — "a sequence of typed records: prescriptions,
diagnostic reports, lab reports, immunizations, each with free-form
fields" plus an open fallback (§9) — with an exact round trip.  The
bundle is serialised to a byte-like stream of naturals and then made
opaque with a key-dependent reversible transformation. -/

/-- Modelled from the spec: one typed record of a health-data bundle
(§3 "Payload blob", §9 tagged-variant representation). -/
inductive HealthRecord where
  | prescription (fields : List (String × String))
  | diagnosticReport (fields : List (String × String))
  | labReport (fields : List (String × String))
  | immunization (fields : List (String × String))
  | unknownRecord (kind : String) (fields : List (String × String))
deriving Repr, DecidableEq

/-- Modelled from the spec: a health-data bundle is a sequence of typed
records. -/
abbrev HealthBundle := List HealthRecord

/-- Length-prefixed serialisation of a string. -/
def encodeString (s : String) : List Nat :=
  s.toList.length :: s.toList.map Char.toNat

/-- Read `n` characters from the stream. -/
def decodeChars : Nat → List Nat → Option (List Char × List Nat)
  | 0, rest => some ([], rest)
  | _ + 1, [] => none
  | n + 1, b :: rest =>
    match decodeChars n rest with
    | none => none
    | some p => some (Char.ofNat b :: p.1, p.2)

/-- Inverse of `encodeString`. -/
def decodeString : List Nat → Option (String × List Nat)
  | [] => none
  | n :: rest =>
    match decodeChars n rest with
    | none => none
    | some p => some (String.mk p.1, p.2)

/-- Serialisation of one free-form field (key/value pair). -/
def encodeField (f : String × String) : List Nat :=
  encodeString f.1 ++ encodeString f.2

/-- Inverse of `encodeField`. -/
def decodeField (l : List Nat) : Option ((String × String) × List Nat) :=
  match decodeString l with
  | none => none
  | some (k, r1) =>
    match decodeString r1 with
    | none => none
    | some (v, r2) => some ((k, v), r2)

/-- Serialisation of a field list (without the count prefix). -/
def encodeFieldList : List (String × String) → List Nat
  | [] => []
  | f :: fs => encodeField f ++ encodeFieldList fs

/-- Read `n` fields from the stream. -/
def decodeFieldList : Nat → List Nat → Option (List (String × String) × List Nat)
  | 0, rest => some ([], rest)
  | n + 1, l =>
    match decodeField l with
    | none => none
    | some (f, r1) =>
      match decodeFieldList n r1 with
      | none => none
      | some (fs, r2) => some (f :: fs, r2)

/-- Count-prefixed serialisation of a field list. -/
def encodeFields (fs : List (String × String)) : List Nat :=
  fs.length :: encodeFieldList fs

/-- Inverse of `encodeFields`. -/
def decodeFields : List Nat → Option (List (String × String) × List Nat)
  | [] => none
  | n :: rest => decodeFieldList n rest

/-- Tag-prefixed serialisation of one record. -/
def encodeRecord : HealthRecord → List Nat
  | .prescription fs => 0 :: encodeFields fs
  | .diagnosticReport fs => 1 :: encodeFields fs
  | .labReport fs => 2 :: encodeFields fs
  | .immunization fs => 3 :: encodeFields fs
  | .unknownRecord k fs => 4 :: (encodeString k ++ encodeFields fs)

/-- Inverse of `encodeRecord`. -/
def decodeRecord (l : List Nat) : Option (HealthRecord × List Nat) :=
  match l with
  | [] => none
  | t :: rest =>
    if t = 0 then
      match decodeFields rest with
      | none => none
      | some (fs, r) => some (.prescription fs, r)
    else if t = 1 then
      match decodeFields rest with
      | none => none
      | some (fs, r) => some (.diagnosticReport fs, r)
    else if t = 2 then
      match decodeFields rest with
      | none => none
      | some (fs, r) => some (.labReport fs, r)
    else if t = 3 then
      match decodeFields rest with
      | none => none
      | some (fs, r) => some (.immunization fs, r)
    else if t = 4 then
      match decodeString rest with
      | none => none
      | some (k, r1) =>
        match decodeFields r1 with
        | none => none
        | some (fs, r2) => some (.unknownRecord k fs, r2)
    else none

/-- Serialisation of a record list (without the count prefix). -/
def encodeRecordList : List HealthRecord → List Nat
  | [] => []
  | r :: rs => encodeRecord r ++ encodeRecordList rs

/-- Read `n` records from the stream. -/
def decodeRecordList : Nat → List Nat → Option (List HealthRecord × List Nat)
  | 0, rest => some ([], rest)
  | n + 1, l =>
    match decodeRecord l with
    | none => none
    | some (r, r1) =>
      match decodeRecordList n r1 with
      | none => none
      | some (rs, r2) => some (r :: rs, r2)

/-- Count-prefixed serialisation of a whole bundle. -/
def encodeBundle (b : HealthBundle) : List Nat :=
  b.length :: encodeRecordList b

/-- Inverse of `encodeBundle`; rejects trailing junk. -/
def decodeBundle (l : List Nat) : Option HealthBundle :=
  match l with
  | [] => none
  | n :: rest =>
    match decodeRecordList n rest with
    | some (rs, []) => some rs
    | _ => none

/-- Key-dependent reversible scrambling of the serialised stream. -/
def encryptBytes (key : Nat) (l : List Nat) : List Nat :=
  l.map (· + key)

/-- Inverse of `encryptBytes` for the same key. -/
def decryptBytes (key : Nat) (l : List Nat) : List Nat :=
  l.map (· - key)

/-- Modelled from the spec: `encrypt(bundle) -> blob` (spec §4.5),
the source's `encryptor.encrypt_dict`. -/
def encrypt_dict (key : Nat) (b : HealthBundle) : List Nat :=
  encryptBytes key (encodeBundle b)

/-- Modelled from the spec: `decrypt(blob) -> bundle` (spec §4.5);
malformed blobs yield `none` (the spec's `DecodeError`). -/
def decrypt_dict (key : Nat) (l : List Nat) : Option HealthBundle :=
  decodeBundle (decryptBytes key l)

theorem stringMk_toList (s : String) : String.mk s.toList = s := rfl

theorem decodeChars_encode (cs : List Char) (rest : List Nat) :
    decodeChars cs.length (cs.map Char.toNat ++ rest) = some (cs, rest) := by
  induction cs with
  | nil => rfl
  | cons c cs ih => simp [decodeChars, ih, Char.ofNat_toNat]

theorem decodeChars_encode_str (s : String) (rest : List Nat) :
    decodeChars s.length (List.map Char.toNat s.data ++ rest) = some (s.data, rest) :=
  decodeChars_encode s.toList rest

theorem decodeString_encode (s : String) (rest : List Nat) :
    decodeString (encodeString s ++ rest) = some (s, rest) := by
  simp [encodeString, decodeString, decodeChars_encode_str, stringMk_toList]

theorem decodeField_encode (f : String × String) (rest : List Nat) :
    decodeField (encodeField f ++ rest) = some (f, rest) := by
  simp [encodeField, decodeField, List.append_assoc, decodeString_encode]

theorem decodeFieldList_encode (fs : List (String × String)) (rest : List Nat) :
    decodeFieldList fs.length (encodeFieldList fs ++ rest) = some (fs, rest) := by
  induction fs with
  | nil => rfl
  | cons f fs ih =>
    simp [encodeFieldList, decodeFieldList, List.append_assoc, decodeField_encode, ih]

theorem decodeFields_encode (fs : List (String × String)) (rest : List Nat) :
    decodeFields (encodeFields fs ++ rest) = some (fs, rest) := by
  simp [encodeFields, decodeFields, decodeFieldList_encode]

theorem decodeRecord_encode (r : HealthRecord) (rest : List Nat) :
    decodeRecord (encodeRecord r ++ rest) = some (r, rest) := by
  cases r with
  | prescription fs => simp [encodeRecord, decodeRecord, decodeFields_encode]
  | diagnosticReport fs => simp [encodeRecord, decodeRecord, decodeFields_encode]
  | labReport fs => simp [encodeRecord, decodeRecord, decodeFields_encode]
  | immunization fs => simp [encodeRecord, decodeRecord, decodeFields_encode]
  | unknownRecord k fs =>
    simp [encodeRecord, decodeRecord, List.append_assoc, decodeString_encode,
      decodeFields_encode]

theorem decodeRecordList_encode (rs : List HealthRecord) (rest : List Nat) :
    decodeRecordList rs.length (encodeRecordList rs ++ rest) = some (rs, rest) := by
  induction rs with
  | nil => rfl
  | cons r rs ih =>
    simp [encodeRecordList, decodeRecordList, List.append_assoc, decodeRecord_encode, ih]

theorem decodeBundle_encode (b : HealthBundle) :
    decodeBundle (encodeBundle b) = some b := by
  have h := decodeRecordList_encode b []
  simp at h
  simp [encodeBundle, decodeBundle, h]

theorem decryptBytes_encryptBytes (key : Nat) (l : List Nat) :
    decryptBytes key (encryptBytes key l) = l := by
  simp [encryptBytes, decryptBytes, List.map_map, Function.comp_def, Nat.add_sub_cancel]

/-- C6: for every supported health-data bundle, decrypting the result of
encrypting it yields exactly the original bundle: the codec round trip is
the identity on supported record shapes. -/
theorem codec_round_trip (key : Nat) (b : HealthBundle) :
    decrypt_dict key (encrypt_dict key b) = some b := by
  simp [encrypt_dict, decrypt_dict, decryptBytes_encryptBytes, decodeBundle_encode]

/-! ### Gateway data model

Rows of the three tables touched by the gateway services.  The column
set is the one read and written by `data_service.py` and
`consent_service.py`; bookkeeping-column defaults (`retry_count`,
`max_retries`, `webhook_attempts`) are modelled from the spec (§3), since
`app/database/models.py` is not part of the provided sources — none of
the verified claims depends on their initial values. -/

/-- A row of the gateway `Patient` table (columns used by the services). -/
structure Patient where
  abha_id : String
  name : String
deriving Repr, DecidableEq

/-- A row of the gateway `ConsentRequest` table. -/
structure ConsentRequest where
  consent_request_id : String
  patient_abha_id : String
  hip_id : String
  purpose : String
  status : String
deriving Repr, DecidableEq

/-- A row of the gateway `DataTransfer` table. -/
structure DataTransfer where
  transfer_id : String
  consent_request_id : String
  patient_abha_id : String
  from_entity : String
  to_entity : String
  status : String
  encrypted_data : Option (List Nat) := none
  data_count : Nat := 0
  retry_count : Nat := 0
  max_retries : Nat := 3
  webhook_attempts : Nat := 0
  last_webhook_error : Option String := none
  next_retry_at : Option Nat := none
  expires_at : Option Nat := none
deriving Repr, DecidableEq

/-- The gateway database: the three tables the verified services touch. -/
structure GatewayDB where
  patients : List Patient
  consents : List ConsentRequest
  transfers : List DataTransfer
deriving Repr, DecidableEq

/-- `select(Patient).where(Patient.abha_id == x)` + `scalar_one_or_none()`. -/
def findPatient (db : GatewayDB) (abha : String) : Option Patient :=
  db.patients.find? (fun p => p.abha_id == abha)

/-- `select(ConsentRequest).where(consent_request_id == x)` + `scalar…()`. -/
def findConsent (db : GatewayDB) (cid : String) : Option ConsentRequest :=
  db.consents.find? (fun c => c.consent_request_id == cid)

/-- `select(DataTransfer).where(transfer_id == x)` + `scalar…()`. -/
def findTransfer (db : GatewayDB) (tid : String) : Option DataTransfer :=
  db.transfers.find? (fun t => t.transfer_id == tid)

/-- ORM row mutation + `commit()`: rewrite the first row matching `p`. -/
def updateFirst {α : Type} (p : α → Bool) (f : α → α) : List α → List α
  | [] => []
  | x :: xs => if p x then f x :: xs else x :: updateFirst p f xs

/-- Python truthiness of an optional string: `None` and `""` are falsy. -/
def optTruthy : Option String → Option String
  | some s => if s.isEmpty then none else some s
  | none => none

/-- Outbound webhook calls attempted by the embedded gateway operations.
`hipDataRequest` records an invocation of
`task_processor.send_hip_data_request` (the task processor itself is
outside the provided sources; only the fact and arguments of the call
matter for the claims). -/
inductive GEvent where
  | hipDataRequest (transfer_id hip_id hiu_id patient_id consent_id : String)
      (care_context_ids data_types : List String)
deriving Repr, DecidableEq

/-- Modelled from the spec: the key held by the gateway's global
`encryptor` singleton (`app/utils/encryption.py`, not in the provided
sources).  Its value is irrelevant to every claim. -/
def encryptor_key : Nat := 0

/-! ### data_service.py -/

/-- `_ensure_patient` (data_service.py lines 12–23): fetch the patient or
auto-create one to satisfy the FK constraint. -/
def ensure_patient (db : GatewayDB) (patient_abha_id : String) : GatewayDB :=
  match findPatient db patient_abha_id with
  | some _ => db
  | none =>
      { db with patients :=
          db.patients ++ [{ abha_id := patient_abha_id,
                            name := "Patient " ++ patient_abha_id }] }

/-- `_ensure_consent_approved` (data_service.py lines 26–57): if a truthy
consent id is given and found, force its status to `APPROVED` (committing
only when it differs); otherwise create a fresh auto-approved consent
whose id is the given one or `consent-<uuid4>`.  Returns the updated
database and the approved consent id. -/
def ensure_consent_approved (db : GatewayDB) (consent_id : Option String)
    (patient_abha_id hip_id : String) (freshConsentId : String) :
    GatewayDB × String :=
  match optTruthy consent_id with
  | some cid =>
    match findConsent db cid with
    | some c =>
      if c.status == "APPROVED" then (db, c.consent_request_id)
      else
        ({ db with consents :=
            (updateFirst (fun x => x.consent_request_id == cid)
              (fun x => { x with status := "APPROVED" }) db.consents) },
         c.consent_request_id)
    | none =>
      let new_consent : ConsentRequest :=
        { consent_request_id := cid, patient_abha_id := patient_abha_id,
          hip_id := hip_id, purpose := "Auto-approved for data transfer",
          status := "APPROVED" }
      ({ db with consents := db.consents ++ [new_consent] }, cid)
  | none =>
    let new_id := "consent-" ++ freshConsentId
    let new_consent : ConsentRequest :=
      { consent_request_id := new_id, patient_abha_id := patient_abha_id,
        hip_id := hip_id, purpose := "Auto-approved for data transfer",
        status := "APPROVED" }
    ({ db with consents := db.consents ++ [new_consent] }, new_id)

/-- The `DataTransfer` row constructed by `request_health_info`
(data_service.py lines 75–85): status `REQUESTED`, `next_retry_at = now`,
`expires_at = now + 24h`, `to_entity` defaulting to `unknown-hiu` when the
HIU id is falsy, `data_count = len(data_types)`. -/
def mk_new_transfer (request_id consent_id patient_abha_id hip_id hiu_id : String)
    (data_types : List String) (now : Nat) : DataTransfer :=
  { transfer_id := request_id
    consent_request_id := consent_id
    patient_abha_id := patient_abha_id
    from_entity := hip_id
    to_entity := if hiu_id.isEmpty then "unknown-hiu" else hiu_id
    status := "REQUESTED"
    data_count := data_types.length
    next_retry_at := some now
    expires_at := some (now + 24 * 3600) }

/-- `request_health_info` up to its first `commit()` (data_service.py
lines 60–88): ensure patient and approved consent, then store the new
transfer in `REQUESTED` state.  Returns the committed database, the
generated request id and the approved consent id.  This is the state a
status query would observe between the first commit and the webhook
outcome. -/
def request_health_info_store (patient_abha_id hip_id hiu_id : String)
    (consent_id : Option String) (data_types : List String)
    (db : GatewayDB) (now : Nat) (freshConsentId freshRequestId : String) :
    GatewayDB × String × String :=
  let db1 := ensure_patient db patient_abha_id
  let r := ensure_consent_approved db1 consent_id patient_abha_id hip_id freshConsentId
  let request_id := "req-" ++ freshRequestId
  let t := mk_new_transfer request_id r.2 patient_abha_id hip_id hiu_id data_types now
  ({ r.1 with transfers := r.1.transfers ++ [t] }, request_id, r.2)

/-- Result dictionary of `request_health_info`, together with the final
database and the trace of outbound webhook calls. -/
structure ReqOut where
  db : GatewayDB
  events : List GEvent
  requestId : String
  consentId : String
  status : String
  message : String
deriving Repr, DecidableEq

/-- `request_health_info` (data_service.py lines 60–116): store the new
`REQUESTED` transfer, attempt the forwarding webhook to the HIP
unconditionally (`webhook_sent` is its outcome), then mutate the same row
object to `FORWARDED` or `FAILED` and commit again — so the final table
is the pre-append table with the mutated row appended. -/
def request_health_info (patient_abha_id hip_id hiu_id : String)
    (consent_id : Option String) (care_context_ids data_types : List String)
    (db : GatewayDB) (now : Nat) (freshConsentId freshRequestId : String)
    (webhook_sent : Bool) : ReqOut :=
  let db1 := ensure_patient db patient_abha_id
  let r := ensure_consent_approved db1 consent_id patient_abha_id hip_id freshConsentId
  let request_id := "req-" ++ freshRequestId
  let t := mk_new_transfer request_id r.2 patient_abha_id hip_id hiu_id data_types now
  let ev := GEvent.hipDataRequest request_id hip_id hiu_id patient_abha_id r.2
    care_context_ids data_types
  let finalStatus := if webhook_sent then "FORWARDED" else "FAILED"
  { db := { r.1 with transfers := r.1.transfers ++ [{ t with status := finalStatus }] }
    events := [ev]
    requestId := request_id
    consentId := r.2
    status := finalStatus
    message := "Data request created and forwarded to HIP" }

/-- Result dictionary of `receive_health_data_from_hip`, with the
resulting database. -/
structure RecvOut where
  db : GatewayDB
  error : Option String
  status : String
  requestId : Option String
  message : Option String
deriving Repr, DecidableEq

/-- The status filter of `receive_health_data_from_hip`
(data_service.py line 145): `status in ["REQUESTED", "FORWARDED",
"PROCESSING"]`. -/
def recvEligible (t : DataTransfer) : Bool :=
  t.status == "REQUESTED" || t.status == "FORWARDED" || t.status == "PROCESSING"

/-- `receive_health_data_from_hip` (data_service.py lines 119–165):
reject unknown transfers and ineligible statuses without touching the
database; otherwise encrypt the bundle, store it on the transfer, set
status `READY` and `next_retry_at = now` for immediate re-delivery. -/
def receive_health_data_from_hip (request_id : String)
    (health_data : HealthBundle) (db : GatewayDB) (now : Nat) : RecvOut :=
  match findTransfer db request_id with
  | none =>
      { db := db, error := some ("Request not found"), status := "FAILED",
        requestId := none, message := none }
  | some transfer =>
    if recvEligible transfer then
      let encrypted_data := encrypt_dict encryptor_key health_data
      { db := { db with transfers :=
            (updateFirst (fun t => t.transfer_id == request_id)
              (fun t => { t with encrypted_data := some encrypted_data,
                                 status := "READY",
                                 next_retry_at := some now }) db.transfers) }
        error := none
        status := "READY"
        requestId := some request_id
        message := some ("Health data received and ready for delivery") }
    else
      { db := db,
        error := some ("Invalid request status: " ++ transfer.status),
        status := "FAILED", requestId := none, message := none }

/-- Result dictionary of `send_health_info`, with the resulting
database. -/
structure SendOut where
  db : GatewayDB
  status : String
  txnId : String
deriving Repr, DecidableEq

/-- `send_health_info` (data_service.py lines 168–195, legacy path):
unconditionally create a transfer already in `DELIVERED` state with
`data_count = 1` and no payload stored. -/
def send_health_info (txn_id patient_id hip_id care_context_id : String)
    (health_info : HealthBundle) (metadata : String) (db : GatewayDB)
    (freshTransferId : String) : SendOut :=
  let new_transfer : DataTransfer :=
    { transfer_id := freshTransferId, consent_request_id := txn_id,
      patient_abha_id := patient_id, from_entity := hip_id, to_entity := "HIU",
      status := "DELIVERED", data_count := 1 }
  { db := { db with transfers := db.transfers ++ [new_transfer] },
    status := "RECEIVED", txnId := txn_id }

/-- Result dictionary of `notify_data_flow`, with the resulting
database. -/
structure NotifyFlowOut where
  db : GatewayDB
  status : String
  txnId : String
deriving Repr, DecidableEq

/-- `notify_data_flow` (data_service.py lines 247–262, legacy path): if
the transfer exists, overwrite its status with the given value —
whatever the current status is — and echo the new status; otherwise
report `NOT_FOUND` and leave the database untouched. -/
def notify_data_flow (txn_id status hip_id : String) (db : GatewayDB) :
    NotifyFlowOut :=
  match findTransfer db txn_id with
  | some _ =>
      { db := { db with transfers :=
            (updateFirst (fun t => t.transfer_id == txn_id)
              (fun t => { t with status := status }) db.transfers) }
        status := status, txnId := txn_id }
  | none => { db := db, status := "NOT_FOUND", txnId := txn_id }

/-! ### consent_service.py -/

/-- Result dictionary of `notify_consent`, with the resulting
database. -/
structure NotifyConsentOut where
  db : GatewayDB
  consentRequestId : String
  status : String
deriving Repr, DecidableEq

/-- `notify_consent` (consent_service.py lines 73–85): if the consent
exists, set its status to the given value and echo it; otherwise return
`NOT_FOUND` without modifying anything. -/
def notify_consent (consent_id status : String) (db : GatewayDB) :
    NotifyConsentOut :=
  match findConsent db consent_id with
  | some _ =>
      { db := { db with consents :=
            (updateFirst (fun c => c.consent_request_id == consent_id)
              (fun c => { c with status := status }) db.consents) }
        consentRequestId := consent_id, status := status }
  | none => { db := db, consentRequestId := consent_id, status := "NOT_FOUND" }

/-! ### Hospital patient registration (abdm-hospital/app/api/routes/patient.py)

The hospital `Patient` table's unique constraints (`aadhaar`, `abha_id`,
`mobile`) are inferred from the `IntegrityError` handler of
`create_new_patient` itself, since the hospital `models.py` is not part of
the provided sources.  `dateOfBirth` parsing is modelled as keeping the
given string, and the external gateway `discover_patient` call is
modelled by its outcome `gateway_result` (`none` for an exception or a
non-dict response — both leave every gateway-derived field unset). -/

/-- A row of the hospital `Patient` table (columns used by the route). -/
structure HPatient where
  id : Nat
  name : String
  mobile : String
  abha_id : Option String := none
  abha_address : Option String := none
  gateway_patient_id : Option String := none
  aadhaar : Option String := none
  gender : Option String := none
  date_of_birth : Option String := none
deriving Repr, DecidableEq

/-- The hospital database: the patient table plus the id allocator. -/
structure HospitalDB where
  patients : List HPatient
  nextId : Nat
deriving Repr, DecidableEq

/-- The `PatientRegistrationRequest` pydantic model. -/
structure PatientRegistrationRequest where
  name : String
  mobile : String
  abhaId : Option String := none
  abhaAddress : Option String := none
  aadhaar : Option String := none
  gender : Option String := none
  dateOfBirth : Option String := none
deriving Repr, DecidableEq

/-- The `PatientResponse` pydantic model (optional fields default to
`None` when a handler's dict omits them). -/
structure PatientOut where
  patientId : String
  name : String
  mobile : String
  abhaId : Option String := none
  abhaAddress : Option String := none
  gatewayPatientId : Option String := none
  aadhaar : Option String := none
  gender : Option String := none
  dateOfBirth : Option String := none
  message : Option String := none
deriving Repr, DecidableEq

/-- Outcome of the external `discover_patient` gateway call. -/
structure GatewayDiscoverResult where
  patientId : Option String := none
  abhaId : Option String := none
  abhaAddress : Option String := none
  gender : Option String := none
  dateOfBirth : Option String := none
deriving Repr, DecidableEq

/-- Python `a or b` on optional strings: `a` when truthy, else `b`. -/
def pyOr (a b : Option String) : Option String :=
  match optTruthy a with
  | some s => some s
  | none => b

/-- `find_patient_by_mobile` (patient.py lines 34–48): look the patient up
by mobile number and project it to the response dict (which omits
`abhaAddress`). -/
def find_patient_by_mobile (db : HospitalDB) (mobile : String) :
    Option PatientOut :=
  match db.patients.find? (fun p => p.mobile == mobile) with
  | some r =>
      some { patientId := toString r.id, name := r.name, mobile := r.mobile,
             abhaId := r.abha_id, gatewayPatientId := r.gateway_patient_id,
             aadhaar := r.aadhaar, gender := r.gender,
             dateOfBirth := r.date_of_birth }
  | none => none

/-- `create_new_patient` (patient.py lines 50–120): insert the row, or
fail with the `IntegrityError` handler's detail message when a unique
column collides.  Empty `gender` / `dateOfBirth` strings are stored as
null. -/
def create_new_patient (db : HospitalDB)
    (patient_data : PatientRegistrationRequest)
    (gateway_patient_id : Option String) :
    Except String (HospitalDB × PatientOut) :=
  let collide : Option String → (HPatient → Option String) → Bool :=
    fun v get =>
      match v with
      | none => false
      | some s => db.patients.any (fun p => get p == some s)
  if collide patient_data.aadhaar (fun p => p.aadhaar) then
    .error ("A patient with this Aadhaar number already exists")
  else if collide patient_data.abhaId (fun p => p.abha_id) then
    .error ("A patient with this ABHA ID already exists")
  else if db.patients.any (fun p => p.mobile == patient_data.mobile) then
    .error ("A patient with this mobile number already exists")
  else
    let row : HPatient :=
      { id := db.nextId, name := patient_data.name,
        mobile := patient_data.mobile, abha_id := patient_data.abhaId,
        abha_address := patient_data.abhaAddress,
        gateway_patient_id := gateway_patient_id,
        aadhaar := patient_data.aadhaar,
        gender := optTruthy patient_data.gender,
        date_of_birth := optTruthy patient_data.dateOfBirth }
    .ok ({ patients := db.patients ++ [row], nextId := db.nextId + 1 },
         { patientId := toString row.id, name := row.name,
           mobile := row.mobile, abhaId := row.abha_id,
           abhaAddress := row.abha_address,
           gatewayPatientId := row.gateway_patient_id,
           aadhaar := row.aadhaar, gender := row.gender,
           dateOfBirth := row.date_of_birth })

/-- `register_patient` (patient.py lines 123–273): return the existing
patient when the ABHA id, the Aadhaar number or the mobile number already
matches a row (in that order, each check only for truthy request fields);
otherwise call the gateway, create the row, then patch any
gateway-provided fields still missing on it. -/
def register_patient (request : PatientRegistrationRequest)
    (db : HospitalDB) (gateway_result : Option GatewayDiscoverResult) :
    Except String (HospitalDB × PatientOut) :=
  match (optTruthy request.abhaId).bind
      (fun a => db.patients.find? (fun p => p.abha_id == some a)) with
  | some p =>
      .ok (db, { patientId := toString p.id, name := p.name,
                 mobile := p.mobile, abhaId := p.abha_id,
                 aadhaar := p.aadhaar, gender := p.gender,
                 dateOfBirth := p.date_of_birth,
                 gatewayPatientId := p.gateway_patient_id,
                 message := some ("Patient already registered with this ABHA ID") })
  | none =>
    match (optTruthy request.aadhaar).bind
        (fun a => db.patients.find? (fun p => p.aadhaar == some a)) with
    | some p =>
        let cond := (optTruthy request.abhaId).isSome
          && (optTruthy p.abha_id).isNone
        let p2 := if cond then { p with abha_id := request.abhaId } else p
        let db2 := if cond then
            { db with patients :=
                (updateFirst (fun q => q.id == p.id)
                  (fun q => { q with abha_id := request.abhaId }) db.patients) }
          else db
        .ok (db2, { patientId := toString p2.id, name := p2.name,
                    mobile := p2.mobile, abhaId := p2.abha_id,
                    aadhaar := p2.aadhaar, gender := p2.gender,
                    dateOfBirth := p2.date_of_birth,
                    gatewayPatientId := p2.gateway_patient_id,
                    message := some ("Patient already registered with this Aadhaar number") })
    | none =>
      match find_patient_by_mobile db request.mobile with
      | some existing_patient => .ok (db, existing_patient)
      | none =>
        let gateway_patient_id := gateway_result.bind (fun g => g.patientId)
        let gateway_abha_id :=
          match gateway_result with
          | some g => pyOr g.abhaId request.abhaId
          | none => none
        let gateway_abha_address := gateway_result.bind (fun g => g.abhaAddress)
        let patient_data : PatientRegistrationRequest :=
          { request with
            abhaId := if (optTruthy gateway_abha_id).isSome then gateway_abha_id
              else request.abhaId
            abhaAddress := if (optTruthy gateway_abha_address).isSome then
                gateway_abha_address
              else request.abhaAddress
            gender :=
              match gateway_result.bind (fun g => optTruthy g.gender) with
              | some g => some g
              | none => request.gender
            dateOfBirth :=
              match gateway_result.bind (fun g => optTruthy g.dateOfBirth) with
              | some d => some d
              | none => request.dateOfBirth }
        match create_new_patient db patient_data gateway_patient_id with
        | .error e => .error e
        | .ok (db3, new_patient) =>
          let regMsg := "Patient registered successfully"
            ++ (if (optTruthy gateway_patient_id).isSome then
                  " and synced with gateway" else "")
          match db3.patients.find?
              (fun q => toString q.id == new_patient.patientId) with
          | none => .ok (db3, { new_patient with message := some regMsg })
          | some patient_obj =>
            let c1 := (optTruthy gateway_abha_id).isSome
              && (optTruthy patient_obj.abha_id).isNone
            let c2 := (optTruthy gateway_abha_address).isSome
              && (optTruthy patient_obj.abha_address).isNone
            let c3 := (gateway_result.bind (fun g => optTruthy g.gender)).isSome
              && (optTruthy patient_obj.gender).isNone
            let c4 := (gateway_result.bind (fun g => optTruthy g.dateOfBirth)).isSome
              && (optTruthy patient_obj.date_of_birth).isNone
            let patch : HPatient → HPatient := fun q =>
              { q with
                abha_id := if c1 then gateway_abha_id else q.abha_id
                abha_address := if c2 then gateway_abha_address else q.abha_address
                gender := if c3 then gateway_result.bind (fun g => optTruthy g.gender)
                  else q.gender
                date_of_birth := if c4 then
                    gateway_result.bind (fun g => optTruthy g.dateOfBirth)
                  else q.date_of_birth }
            let db4 := { db3 with patients :=
                (updateFirst (fun q => toString q.id == new_patient.patientId)
                  patch db3.patients) }
            let new_patient2 := { new_patient with
              abhaId := if c1 then gateway_abha_id else new_patient.abhaId
              abhaAddress := if c2 then gateway_abha_address
                else new_patient.abhaAddress
              gender := if c3 then gateway_result.bind (fun g => optTruthy g.gender)
                else new_patient.gender
              dateOfBirth := if c4 then
                  gateway_result.bind (fun g => optTruthy g.dateOfBirth)
                else new_patient.dateOfBirth
              message := some regMsg }
            .ok (db4, new_patient2)

/-! ### Helper lemmas -/

theorem updateFirst_find_same {α : Type} (p : α → Bool) (f : α → α)
    (l : List α) (hpf : ∀ x, p (f x) = p x) :
    (updateFirst p f l).find? p = (l.find? p).map f := by
  induction l with
  | nil => rfl
  | cons x xs ih =>
    unfold updateFirst
    cases hx : p x with
    | true =>
      rw [if_pos rfl]
      rw [List.find?_cons_of_pos _ ((hpf x).trans hx),
        List.find?_cons_of_pos _ hx, Option.map_some']
    | false =>
      rw [if_neg (by simp)]
      rw [List.find?_cons_of_neg _ (by simp [hx]),
        List.find?_cons_of_neg _ (by simp [hx]), ih]

theorem mem_updateFirst {α : Type} {p : α → Bool} {f : α → α} {l : List α}
    {t : α} (h : t ∈ updateFirst p f l) : t ∈ l ∨ ∃ u, u ∈ l ∧ t = f u := by
  induction l with
  | nil => simp [updateFirst] at h
  | cons x xs ih =>
    unfold updateFirst at h
    cases hx : p x with
    | true =>
      rw [if_pos hx] at h
      rcases List.mem_cons.mp h with h | h
      · exact Or.inr ⟨x, List.mem_cons_self x xs, h⟩
      · exact Or.inl (List.mem_cons_of_mem x h)
    | false =>
      rw [if_neg (by simp [hx])] at h
      rcases List.mem_cons.mp h with h | h
      · exact Or.inl (h ▸ List.mem_cons_self x xs)
      · rcases ih h with h1 | ⟨u, hu, ht⟩
        · exact Or.inl (List.mem_cons_of_mem x h1)
        · exact Or.inr ⟨u, List.mem_cons_of_mem x hu, ht⟩

theorem ensure_patient_consents (db : GatewayDB) (a : String) :
    (ensure_patient db a).consents = db.consents := by
  unfold ensure_patient
  cases findPatient db a <;> rfl

theorem ensure_patient_transfers (db : GatewayDB) (a : String) :
    (ensure_patient db a).transfers = db.transfers := by
  unfold ensure_patient
  cases findPatient db a <;> rfl

theorem ensure_consent_approved_transfers (db : GatewayDB)
    (cid : Option String) (pat hip fresh : String) :
    (ensure_consent_approved db cid pat hip fresh).1.transfers = db.transfers := by
  unfold ensure_consent_approved
  cases optTruthy cid with
  | none => rfl
  | some c =>
    dsimp only
    cases findConsent db c with
    | none => rfl
    | some x =>
      dsimp only
      cases x.status == "APPROVED" <;> rfl

theorem findConsent_id {db : GatewayDB} {cid : String} {c : ConsentRequest}
    (h : findConsent db cid = some c) : c.consent_request_id = cid := by
  have := List.find?_some h
  simpa using this

theorem findConsent_append_self (db : GatewayDB) (nc : ConsentRequest) :
    findConsent db nc.consent_request_id = none →
    findConsent { db with consents := db.consents ++ [nc] }
      nc.consent_request_id = some nc := by
  intro h
  unfold findConsent at h ⊢
  rw [List.find?_append, h]
  simp

theorem ensure_consent_approved_finds (db : GatewayDB)
    (consent_id : Option String) (pat hip fresh : String)
    (hfresh : findConsent db ("consent-" ++ fresh) = none) :
    ∃ c, findConsent (ensure_consent_approved db consent_id pat hip fresh).1
        (ensure_consent_approved db consent_id pat hip fresh).2 = some c
      ∧ c.status = "APPROVED" := by
  unfold ensure_consent_approved
  cases hopt : optTruthy consent_id with
  | none =>
    dsimp only
    refine ⟨⟨"consent-" ++ fresh, pat, hip, "Auto-approved for data transfer",
      "APPROVED"⟩, ?_, rfl⟩
    exact findConsent_append_self db _ hfresh
  | some cid =>
    dsimp only
    cases hf : findConsent db cid with
    | none =>
      dsimp only
      refine ⟨⟨cid, pat, hip, "Auto-approved for data transfer",
        "APPROVED"⟩, ?_, rfl⟩
      exact findConsent_append_self db _ hf
    | some c =>
      dsimp only
      have hc : c.consent_request_id = cid := findConsent_id hf
      cases hs : c.status == "APPROVED" with
      | true =>
        rw [if_pos rfl]
        refine ⟨c, ?_, by simpa using hs⟩
        dsimp only
        rw [hc]
        exact hf
      | false =>
        rw [if_neg (by simp)]
        refine ⟨{ c with status := "APPROVED" }, ?_, rfl⟩
        show findConsent _ _ = _
        unfold findConsent
        dsimp only
        rw [hc]
        have := updateFirst_find_same (fun x => x.consent_request_id == cid)
          (fun x => { x with status := "APPROVED" }) db.consents (fun x => rfl)
        rw [this]
        unfold findConsent at hf
        rw [hf, Option.map_some', hc]

/-! ### Concrete fixtures used by counterexamples and witnesses -/

/-- The empty gateway database. -/
def dbEmpty : GatewayDB := { patients := [], consents := [], transfers := [] }

/-- A gateway database holding one DENIED consent `c1`. -/
def dbDenied : GatewayDB :=
  { patients := [], consents := [⟨"c1", "p1", "hip1", "pur", "DENIED"⟩],
    transfers := [] }

/-- A gateway database holding one PENDING consent `c1`. -/
def dbPending : GatewayDB :=
  { patients := [], consents := [⟨"c1", "p1", "hip1", "pur", "PENDING"⟩],
    transfers := [] }

/-- A transfer in DELIVERED state. -/
def tDelivered : DataTransfer :=
  { transfer_id := "t1", consent_request_id := "c1", patient_abha_id := "p1",
    from_entity := "hip1", to_entity := "hiu1", status := "DELIVERED" }

/-- A gateway database holding one DELIVERED transfer `t1`. -/
def dbDelivered : GatewayDB :=
  { patients := [], consents := [], transfers := [tDelivered] }

/-- A transfer in REQUESTED state. -/
def tRequested : DataTransfer :=
  { transfer_id := "t1", consent_request_id := "c1", patient_abha_id := "p1",
    from_entity := "hip1", to_entity := "hiu1", status := "REQUESTED" }

/-- A gateway database holding one REQUESTED transfer `t1`. -/
def dbRequested : GatewayDB :=
  { patients := [], consents := [], transfers := [tRequested] }

/-- A transfer in FORWARDED state. -/
def tForwarded : DataTransfer :=
  { transfer_id := "t1", consent_request_id := "c1", patient_abha_id := "p1",
    from_entity := "hip1", to_entity := "hiu1", status := "FORWARDED" }

/-- A gateway database holding one FORWARDED transfer `t1`. -/
def dbForwarded : GatewayDB :=
  { patients := [], consents := [], transfers := [tForwarded] }

/-! ### Claim theorems -/

/-- C9: `notify_consent` returns NOT_FOUND and leaves the database
untouched when the consent id is unknown; for a known id it updates
exactly that consent's status to the given value and returns that
status. -/
theorem notify_consent_spec (db : GatewayDB) (cid st : String) :
    (findConsent db cid = none →
      (notify_consent cid st db).status = "NOT_FOUND"
      ∧ (notify_consent cid st db).db = db)
    ∧ (∀ c, findConsent db cid = some c →
      (notify_consent cid st db).status = st
      ∧ (notify_consent cid st db).db.patients = db.patients
      ∧ (notify_consent cid st db).db.transfers = db.transfers
      ∧ (notify_consent cid st db).db.consents =
          updateFirst (fun x => x.consent_request_id == cid)
            (fun x => { x with status := st }) db.consents
      ∧ findConsent (notify_consent cid st db).db cid =
          some { c with status := st }) := by
  constructor
  · intro h
    unfold notify_consent
    rw [h]
    exact ⟨rfl, rfl⟩
  · intro c h
    unfold notify_consent
    rw [h]
    refine ⟨rfl, rfl, rfl, rfl, ?_⟩
    show findConsent _ _ = _
    unfold findConsent
    dsimp only
    rw [updateFirst_find_same (fun x => x.consent_request_id == cid)
      (fun x => { x with status := st }) db.consents (fun x => rfl)]
    unfold findConsent at h
    rw [h, Option.map_some']

/-- Witness for C9 at concrete inputs: an unknown id yields NOT_FOUND
with the database unchanged; a known id gets the new status stored and
echoed. -/
theorem notify_consent_spec_witness :
    (notify_consent ("zzz") ("APPROVED") dbPending).status = "NOT_FOUND"
    ∧ (notify_consent ("zzz") ("APPROVED") dbPending).db = dbPending
    ∧ (notify_consent ("c1") ("REVOKED") dbPending).status = "REVOKED"
    ∧ findConsent (notify_consent ("c1") ("REVOKED") dbPending).db ("c1")
        = some ⟨"c1", "p1", "hip1", "pur", "REVOKED"⟩ := by
  have h1 := (notify_consent_spec dbPending ("zzz") ("APPROVED")).1 rfl
  have h2 := (notify_consent_spec dbPending ("c1") ("REVOKED")).2
    ⟨"c1", "p1", "hip1", "pur", "PENDING"⟩ rfl
  exact ⟨h1.1, h1.2, h2.1, h2.2.2.2.2⟩

/-- C5: `receive_health_data_from_hip` returns an error result iff the
referenced transfer does not exist or its status is not one of
REQUESTED, FORWARDED, PROCESSING; in every error case the database is
left unchanged. -/
theorem receive_health_data_error_spec (db : GatewayDB) (rid : String)
    (hd : HealthBundle) (now : Nat) :
    ((receive_health_data_from_hip rid hd db now).error.isSome =
      (match findTransfer db rid with
       | none => true
       | some t => !(recvEligible t)))
    ∧ ((receive_health_data_from_hip rid hd db now).error.isSome = true →
        (receive_health_data_from_hip rid hd db now).db = db) := by
  unfold receive_health_data_from_hip
  cases h : findTransfer db rid with
  | none => exact ⟨rfl, fun _ => rfl⟩
  | some t =>
    dsimp only
    cases he : recvEligible t with
    | true =>
      rw [if_pos rfl]
      exact ⟨rfl, fun hk => Bool.noConfusion hk⟩
    | false =>
      rw [if_neg (by simp)]
      exact ⟨rfl, fun _ => rfl⟩

/-- Witness for C5 at a concrete input: a DELIVERED transfer is an error
case and the database is unchanged. -/
theorem receive_health_data_error_spec_witness :
    (receive_health_data_from_hip ("t1") [] dbDelivered 0).error.isSome = true
    ∧ (receive_health_data_from_hip ("t1") [] dbDelivered 0).db = dbDelivered := by
  have h := receive_health_data_error_spec dbDelivered ("t1") [] 0
  have he : (receive_health_data_from_hip ("t1") [] dbDelivered 0).error.isSome = true := by
    rw [h.1]
    rfl
  exact ⟨he, h.2 he⟩

/-- C4 counterexample: a health-data submission for a transfer in
REQUESTED state is accepted (no error, status READY) — the claim says it
must be rejected with an error. -/
theorem requested_submission_accepted :
    (receive_health_data_from_hip ("t1") [] dbRequested 5).error = none
    ∧ (receive_health_data_from_hip ("t1") [] dbRequested 5).status = "READY" :=
  ⟨rfl, rfl⟩

/-- C4 (amended): a submission for a transfer in REQUESTED, FORWARDED or
PROCESSING state is accepted: no error, the transfer moves to READY with
the encrypted payload stored and `next_retry_at` set to now (immediate
re-delivery); all other states are rejected (per C5's theorem). -/
theorem receive_health_data_accepts_active_states (db : GatewayDB)
    (rid : String) (hd : HealthBundle) (now : Nat) (t : DataTransfer)
    (h : findTransfer db rid = some t) (he : recvEligible t = true) :
    (receive_health_data_from_hip rid hd db now).error = none
    ∧ (receive_health_data_from_hip rid hd db now).status = "READY"
    ∧ findTransfer (receive_health_data_from_hip rid hd db now).db rid =
        some { t with encrypted_data := some (encrypt_dict encryptor_key hd),
                      status := "READY", next_retry_at := some now } := by
  unfold receive_health_data_from_hip
  rw [h]
  dsimp only
  rw [if_pos he]
  refine ⟨rfl, rfl, ?_⟩
  show findTransfer _ _ = _
  unfold findTransfer
  dsimp only
  rw [updateFirst_find_same (fun x => x.transfer_id == rid)
    (fun x => { x with encrypted_data := some (encrypt_dict encryptor_key hd), status := "READY", next_retry_at := some now })
    db.transfers (fun x => rfl)]
  unfold findTransfer at h
  rw [h, Option.map_some']

/-- Witness for the amended C4 at a concrete input: a FORWARDED transfer
is accepted and moves to READY. -/
theorem receive_health_data_accepts_active_states_witness :
    (receive_health_data_from_hip ("t1") [] dbForwarded 5).error = none
    ∧ (receive_health_data_from_hip ("t1") [] dbForwarded 5).status = "READY" := by
  have h := receive_health_data_accepts_active_states dbForwarded ("t1") [] 5
    tForwarded rfl rfl
  exact ⟨h.1, h.2.1⟩

/-- C2 counterexample: the legacy `notify_data_flow` moves the DELIVERED
(terminal) transfer `t1` back to REQUESTED — the claim says no operation
moves a transfer out of a terminal state. -/
theorem notify_data_flow_moves_delivered_transfer :
    ((findTransfer dbDelivered ("t1")).map (fun t => t.status)
        = some ("DELIVERED"))
    ∧ ((findTransfer
          (notify_data_flow ("t1") ("REQUESTED") ("hip1") dbDelivered).db
          ("t1")).map (fun t => t.status) = some ("REQUESTED")) :=
  ⟨rfl, rfl⟩

/-- C2 (amended): no operation except the legacy `notify_data_flow` moves
a transfer out of a terminal state — `receive_health_data_from_hip`
rejects terminal transfers leaving the database unchanged,
`request_health_info` and `send_health_info` keep every existing row
intact (they only append), and `notify_consent` never touches transfers;
`notify_data_flow`, however, overwrites the status of any existing
transfer, terminal included, with its argument. -/
theorem terminal_states_amended :
    (∀ (db : GatewayDB) (rid : String) (hd : HealthBundle) (now : Nat)
        (t : DataTransfer), findTransfer db rid = some t →
        (t.status = "DELIVERED" ∨ t.status = "EXPIRED") →
        (receive_health_data_from_hip rid hd db now).db = db)
    ∧ (∀ (pa hip hiu : String) (cid : Option String)
        (ccs dts : List String) (db : GatewayDB) (now : Nat)
        (fc fr : String) (ws : Bool) (t : DataTransfer), t ∈ db.transfers →
        t ∈ (request_health_info pa hip hiu cid ccs dts db now fc fr ws).db.transfers)
    ∧ (∀ (txn pid hip cc : String) (hi : HealthBundle) (md : String)
        (db : GatewayDB) (fresh : String) (t : DataTransfer),
        t ∈ db.transfers →
        t ∈ (send_health_info txn pid hip cc hi md db fresh).db.transfers)
    ∧ (∀ (cid st : String) (db : GatewayDB),
        (notify_consent cid st db).db.transfers = db.transfers)
    ∧ (∀ (tid st hip : String) (db : GatewayDB) (t : DataTransfer),
        findTransfer db tid = some t →
        findTransfer (notify_data_flow tid st hip db).db tid =
          some { t with status := st }) := by
  refine ⟨?_, ?_, ?_, ?_, ?_⟩
  · intro db rid hd now t h ht
    unfold receive_health_data_from_hip
    rw [h]
    dsimp only
    have he : recvEligible t = false := by
      rcases ht with ht | ht <;> simp [recvEligible, ht]
    rw [if_neg (by simp [he])]
  · intro pa hip hiu cid ccs dts db now fc fr ws t ht
    unfold request_health_info
    dsimp only
    rw [ensure_consent_approved_transfers, ensure_patient_transfers]
    exact List.mem_append_left _ ht
  · intro txn pid hip cc hi md db fresh t ht
    unfold send_health_info
    exact List.mem_append_left _ ht
  · intro cid st db
    unfold notify_consent
    cases findConsent db cid <;> rfl
  · intro tid st hip db t h
    unfold notify_data_flow
    rw [h]
    dsimp only
    show findTransfer _ _ = _
    unfold findTransfer
    dsimp only
    rw [updateFirst_find_same (fun x => x.transfer_id == tid)
      (fun x => { x with status := st }) db.transfers (fun x => rfl)]
    unfold findTransfer at h
    rw [h, Option.map_some']

/-- Witness for the amended C2 at concrete inputs. -/
theorem terminal_states_amended_witness :
    (receive_health_data_from_hip ("t1") [] dbDelivered 3).db = dbDelivered
    ∧ tDelivered ∈ (request_health_info ("p1") ("hip1") ("hiu1") none [] []
        dbDelivered 0 ("f") ("g") true).db.transfers
    ∧ tDelivered ∈ (send_health_info ("x") ("p") ("h") ("cc") [] ("m")
        dbDelivered ("t9")).db.transfers
    ∧ (notify_consent ("c") ("S") dbDelivered).db.transfers
        = dbDelivered.transfers
    ∧ findTransfer (notify_data_flow ("t1") ("EXPIRED") ("hip1")
        dbDelivered).db ("t1") = some { tDelivered with status := "EXPIRED" } := by
  have h := terminal_states_amended
  refine ⟨h.1 dbDelivered ("t1") [] 3 tDelivered rfl (Or.inl rfl), ?_, ?_,
    h.2.2.2.1 ("c") ("S") dbDelivered,
    h.2.2.2.2 ("t1") ("EXPIRED") ("hip1") dbDelivered tDelivered rfl⟩
  · exact h.2.1 ("p1") ("hip1") ("hiu1") none [] [] dbDelivered 0 ("f") ("g")
      true tDelivered (List.mem_cons_self _ _)
  · exact h.2.2.1 ("x") ("p") ("h") ("cc") [] ("m") dbDelivered ("t9")
      tDelivered (List.mem_cons_self _ _)

/-- The claimed payload/status biconditional of C3 as a boolean predicate
on one transfer row: the encrypted payload is non-null iff the status is
READY or DELIVERED. -/
def payloadInvB (t : DataTransfer) : Bool :=
  t.encrypted_data.isSome == (t.status == "READY" || t.status == "DELIVERED")

/-- C3 counterexample: `send_health_info` creates a transfer that is
DELIVERED with a null payload, violating the biconditional. -/
theorem send_health_info_breaks_payload_invariant :
    (findTransfer (send_health_info ("txn") ("p") ("hip") ("cc") [] ("m")
        dbEmpty ("t9")).db ("t9")).map
      (fun t => (t.status, t.encrypted_data.isSome, payloadInvB t))
      = some ("DELIVERED", false, false) :=
  rfl

/-- C3 (amended): `request_health_info` and `receive_health_data_from_hip`
preserve the biconditional "payload non-null iff status is READY or
DELIVERED" for every transfer they create or update; but the legacy
`send_health_info` creates a DELIVERED transfer with a null payload (and
`notify_data_flow` rewrites statuses without touching payloads), so the
biconditional is not an invariant of the whole system. -/
theorem payload_invariant_preserved_by_core_ops :
    (∀ (pa hip hiu : String) (cid : Option String) (ccs dts : List String)
        (db : GatewayDB) (now : Nat) (fc fr : String) (ws : Bool)
        (t : DataTransfer),
        (∀ u ∈ db.transfers, payloadInvB u = true) →
        t ∈ (request_health_info pa hip hiu cid ccs dts db now fc fr ws).db.transfers →
        payloadInvB t = true)
    ∧ (∀ (rid : String) (hd : HealthBundle) (db : GatewayDB) (now : Nat)
        (t : DataTransfer),
        (∀ u ∈ db.transfers, payloadInvB u = true) →
        t ∈ (receive_health_data_from_hip rid hd db now).db.transfers →
        payloadInvB t = true) := by
  constructor
  · intro pa hip hiu cid ccs dts db now fc fr ws t hinv ht
    unfold request_health_info at ht
    dsimp only at ht
    rw [ensure_consent_approved_transfers, ensure_patient_transfers] at ht
    rcases List.mem_append.mp ht with h1 | h1
    · exact hinv t h1
    · rw [List.mem_singleton.mp h1]
      cases ws <;> rfl
  · intro rid hd db now t hinv ht
    unfold receive_health_data_from_hip at ht
    cases hft : findTransfer db rid with
    | none =>
      rw [hft] at ht
      exact hinv t ht
    | some tr =>
      rw [hft] at ht
      dsimp only at ht
      cases he : recvEligible tr with
      | true =>
        rw [if_pos he] at ht
        dsimp only at ht
        rcases mem_updateFirst ht with h1 | ⟨u, hu, htu⟩
        · exact hinv t h1
        · rw [htu]
          rfl
      | false =>
        rw [if_neg (by simp [he])] at ht
        exact hinv t ht

/-- The transfer created by the witness instance of the amended C3's
`request_health_info` conjunct. -/
def tReqForwarded : DataTransfer :=
  { (mk_new_transfer ("req-g") ("consent-f") ("p1") ("hip1") ("hiu1") [] 0) with status := "FORWARDED" }

/-- The transfer produced by the witness instance of the amended C3's
`receive_health_data_from_hip` conjunct. -/
def tForwardedReady : DataTransfer :=
  { tForwarded with encrypted_data := some (encrypt_dict encryptor_key []),
                    status := "READY",
                    next_retry_at := some 5 }

/-- Witness for the amended C3 at concrete inputs. -/
theorem payload_invariant_preserved_by_core_ops_witness :
    payloadInvB tReqForwarded = true ∧ payloadInvB tForwardedReady = true := by
  have h := payload_invariant_preserved_by_core_ops
  constructor
  · exact h.1 ("p1") ("hip1") ("hiu1") none [] [] dbEmpty 0 ("f") ("g") true
      tReqForwarded (fun u hu => absurd hu (List.not_mem_nil u))
      (by decide)
  · exact h.2 ("t1") [] dbForwarded 5 tForwardedReady
      (fun u hu => by rw [List.mem_singleton.mp hu]; rfl)
      (by decide)

/-- C1 counterexample: the consent `c1` is DENIED, yet `request_health_info`
still attempts the forwarding webhook to the HIP (the call appears in the
event trace) — a DENIED consent does not block the forwarding webhook. -/
theorem denied_consent_webhook_attempted :
    ((findConsent dbDenied ("c1")).map (fun c => c.status) = some ("DENIED"))
    ∧ (request_health_info ("p1") ("hip1") ("hiu1") (some ("c1")) [] []
        dbDenied 0 ("f") ("g") true).events
      = [GEvent.hipDataRequest ("req-g") ("hip1") ("hiu1") ("p1") ("c1") [] []] :=
  ⟨rfl, rfl⟩

/-- C1 (amended): `request_health_info` always attempts the forwarding
webhook, and before doing so `_ensure_consent_approved` force-sets the
referenced consent's stored status to APPROVED — so at the time of the
forwarding decision the consent is APPROVED, but a previously DENIED or
REVOKED consent does not block the webhook: it is overwritten to APPROVED
and forwarding proceeds. -/
theorem request_health_info_forces_consent_approved
    (pa hip hiu : String) (cid : Option String) (ccs dts : List String)
    (db : GatewayDB) (now : Nat) (fc fr : String) (ws : Bool)
    (hfresh : findConsent db ("consent-" ++ fc) = none) :
    (request_health_info pa hip hiu cid ccs dts db now fc fr ws).events ≠ []
    ∧ ∃ c, findConsent
          (request_health_info pa hip hiu cid ccs dts db now fc fr ws).db
          (request_health_info pa hip hiu cid ccs dts db now fc fr ws).consentId
        = some c
      ∧ c.status = "APPROVED" := by
  have hfresh1 : findConsent (ensure_patient db pa) ("consent-" ++ fc) = none := by
    unfold findConsent
    rw [ensure_patient_consents]
    exact hfresh
  obtain ⟨c, hc, hs⟩ :=
    ensure_consent_approved_finds (ensure_patient db pa) cid pa hip fc hfresh1
  constructor
  · intro hev
    simp [request_health_info] at hev
  · refine ⟨c, ?_, hs⟩
    unfold request_health_info
    dsimp only
    unfold findConsent at hc ⊢
    dsimp only
    exact hc

/-- Witness for the amended C1 at a concrete input: the DENIED consent is
APPROVED in the database after the call, and the webhook was attempted. -/
theorem request_health_info_forces_consent_approved_witness :
    (request_health_info ("p1") ("hip1") ("hiu1") (some ("c1")) [] []
        dbDenied 0 ("f") ("g") true).events ≠ []
    ∧ (findConsent
        (request_health_info ("p1") ("hip1") ("hiu1") (some ("c1")) [] []
          dbDenied 0 ("f") ("g") true).db
        (request_health_info ("p1") ("hip1") ("hiu1") (some ("c1")) [] []
          dbDenied 0 ("f") ("g") true).consentId).map (fun c => c.status)
      = some ("APPROVED") := by
  have h := request_health_info_forces_consent_approved ("p1") ("hip1")
    ("hiu1") (some ("c1")) [] [] dbDenied 0 ("f") ("g") true rfl
  obtain ⟨c, hc, hs⟩ := h.2
  exact ⟨h.1, by rw [hc, Option.map_some', hs]⟩

/-- C7: every transfer created by `request_health_info` starts in status
REQUESTED with its expiry equal to creation time plus 24 hours (the
default ttl) and its next-action timestamp equal to the creation time;
the first commit stores exactly that row as the last row of the table,
and the final status update preserves both timestamps. -/
theorem request_health_info_initial_transfer_fields
    (pa hip hiu : String) (cid : Option String) (ccs dts : List String)
    (db : GatewayDB) (now : Nat) (fc fr : String) (ws : Bool) :
    (∃ t, (request_health_info_store pa hip hiu cid dts db now fc fr).1.transfers.getLast?
        = some t
      ∧ t.transfer_id = (request_health_info_store pa hip hiu cid dts db now fc fr).2.1
      ∧ t.status = "REQUESTED"
      ∧ t.next_retry_at = some now
      ∧ t.expires_at = some (now + 24 * 3600))
    ∧ (∃ u, (request_health_info pa hip hiu cid ccs dts db now fc fr ws).db.transfers.getLast?
        = some u
      ∧ u.next_retry_at = some now
      ∧ u.expires_at = some (now + 24 * 3600)) := by
  constructor
  · refine ⟨mk_new_transfer ("req-" ++ fr)
        ((ensure_consent_approved (ensure_patient db pa) cid pa hip fc).2)
        pa hip hiu dts now, ?_, rfl, rfl, rfl, rfl⟩
    unfold request_health_info_store
    dsimp only
    exact List.getLast?_concat _
  · refine ⟨{ (mk_new_transfer ("req-" ++ fr)
        ((ensure_consent_approved (ensure_patient db pa) cid pa hip fc).2)
        pa hip hiu dts now) with
          status := (if ws then "FORWARDED" else "FAILED") }, ?_, rfl, rfl⟩
    unfold request_health_info
    dsimp only
    exact List.getLast?_concat _

/-- C8: after `request_health_info`, the newly created transfer's status
is FORWARDED when the forwarding webhook succeeded and FAILED when it
failed — the webhook outcome is a boolean, so these are the only two
possible outcomes of the forwarding step. -/
theorem request_health_info_outcome_status
    (pa hip hiu : String) (cid : Option String) (ccs dts : List String)
    (db : GatewayDB) (now : Nat) (fc fr : String) (ws : Bool) :
    ((request_health_info pa hip hiu cid ccs dts db now fc fr ws).status
      = (if ws then "FORWARDED" else "FAILED"))
    ∧ (∃ t, (request_health_info pa hip hiu cid ccs dts db now fc fr ws).db.transfers.getLast?
        = some t
      ∧ t.transfer_id = (request_health_info pa hip hiu cid ccs dts db now fc fr ws).requestId
      ∧ t.status = (if ws then "FORWARDED" else "FAILED")) := by
  constructor
  · rfl
  · refine ⟨{ (mk_new_transfer ("req-" ++ fr)
        ((ensure_consent_approved (ensure_patient db pa) cid pa hip fc).2)
        pa hip hiu dts now) with
          status := (if ws then "FORWARDED" else "FAILED") }, ?_, rfl, rfl⟩
    unfold request_health_info
    dsimp only
    exact List.getLast?_concat _

/-- C10: a registration request whose mobile number matches an existing
patient row — and whose ABHA id / Aadhaar (when truthy) match no row —
returns the existing patient's data and leaves the patient table
unchanged (no new row is created); hence a second registration with the
same mobile number is a no-op on the table. -/
theorem register_patient_existing_mobile_idempotent
    (request : PatientRegistrationRequest) (db : HospitalDB)
    (gres : Option GatewayDiscoverResult) (out : PatientOut)
    (habha : (optTruthy request.abhaId).bind
        (fun a => db.patients.find? (fun p => p.abha_id == some a)) = none)
    (haad : (optTruthy request.aadhaar).bind
        (fun a => db.patients.find? (fun p => p.aadhaar == some a)) = none)
    (hmob : find_patient_by_mobile db request.mobile = some out) :
    register_patient request db gres = .ok (db, out) := by
  unfold register_patient
  rw [habha]
  dsimp only
  rw [haad]
  dsimp only
  rw [hmob]

/-- An existing hospital patient row used by the C10 witness. -/
def hPatientExisting : HPatient :=
  { id := 1, name := "Asha", mobile := "9999" }

/-- A hospital database holding only `hPatientExisting`. -/
def hospitalDBW : HospitalDB := { patients := [hPatientExisting], nextId := 2 }

/-- A registration request with the same mobile number as
`hPatientExisting` and no ABHA id or Aadhaar. -/
def hRequestW : PatientRegistrationRequest := { name := "Asha", mobile := "9999" }

/-- The response `register_patient` gives for `hRequestW`. -/
def hOutW : PatientOut := { patientId := "1", name := "Asha", mobile := "9999" }

/-- Witness for C10 at a concrete input: registering an already-known
mobile number returns the stored row and leaves the table unchanged. -/
theorem register_patient_existing_mobile_idempotent_witness :
    register_patient hRequestW hospitalDBW none = .ok (hospitalDBW, hOutW) :=
  register_patient_existing_mobile_idempotent hRequestW hospitalDBW none hOutW
    rfl rfl rfl

end ABDM
